import Mathlib

/-!
Shallow embedding of the Thicket Blender add-on (Laubwerk plant importer).

The add-on stores per-plant parameters in a Blender `PropertyGroup`
(`ThicketPropGroup` in `src/__init__.py`).  Blender keeps only the
explicitly written properties in the id-property dictionary that
`items()` / `self[k]` expose, so the record is modelled as an
association list from key strings to values.  Reading a property
through its RNA accessor returns the stored value or the declared
default, modelled by the `get?` functions below.

Floating point parameters are modelled with `Rat`; every constant
appearing in the source (100.0, 0.66, 0.5, 0.1) is exact.
-/

set_option autoImplicit false

namespace Thicket

/-- A value stored in the property-group id-property dictionary:
strings (name, model, qualifier, enum values), floats, ints, bools. -/
inductive PVal where
  | s (v : String)
  | f (v : Rat)
  | i (v : Int)
  | b (v : Bool)
deriving DecidableEq, Repr

/-- The stored id-properties of a `ThicketPropGroup` (what Python
`self.items()` iterates over). -/
abbrev Props := List (String × PVal)

/-- Lookup of `self[k]`: the first entry for key `k`, if stored. -/
def lookupKey (p : Props) (k : String) : Option PVal :=
  match p with
  | [] => none
  | kv :: rest => if kv.1 = k then some kv.2 else lookupKey rest k

/-- Python dict assignment `other[k] = v`: replace the entry for `k`
in place, or append a new entry. -/
def setKey (p : Props) (k : String) (v : PVal) : Props :=
  match p with
  | [] => [(k, v)]
  | kv :: rest => if kv.1 = k then (k, v) :: rest else kv :: setKey rest k v

/-- ThicketPropGroup.__eq__ (src/__init__.py:401-408): for every key
stored on self, other must store an equal value; a KeyError on other
returns False.  Keys stored only on other are not examined. -/
def pgEq (a b : Props) : Bool :=
  a.all fun kv =>
    match lookupKey b kv.1 with
    | some w => decide (kv.2 = w)
    | none => false

/-- The LOD-affecting keys compared by ThicketPropGroup.eq_lod
(src/__init__.py:415-416). -/
def lodKeys : List String :=
  ["leaf_density", "use_lod_max_level", "lod_max_level", "use_lod_min_thick",
   "lod_min_thick", "lod_subdiv", "leaf_amount"]

/-- ThicketPropGroup.eq_lod (src/__init__.py:413-423): like `pgEq` but
keys outside `lodKeys` are skipped. -/
def eq_lod (a b : Props) : Bool :=
  a.all fun kv =>
    if kv.1 ∈ lodKeys then
      match lookupKey b kv.1 with
      | some w => decide (kv.2 = w)
      | none => false
    else true

/-- ThicketPropGroup.copy_to (src/__init__.py:425-427): copy every
stored item of `src` onto `dst` by raw dict assignment. -/
def copy_to (src dst : Props) : Props :=
  src.foldl (fun acc kv => setKey acc kv.1 kv.2) dst

/-- RNA read of a string property: stored value or default. -/
def getS (p : Props) (k d : String) : String :=
  match lookupKey p k with
  | some (.s v) => v
  | _ => d

/-- RNA read of a float property: stored value or default. -/
def getF (p : Props) (k : String) (d : Rat) : Rat :=
  match lookupKey p k with
  | some (.f v) => v
  | _ => d

/-- RNA read of an int property: stored value or default. -/
def getI (p : Props) (k : String) (d : Int) : Int :=
  match lookupKey p k with
  | some (.i v) => v
  | _ => d

/-- RNA read of a bool property: stored value or default. -/
def getB (p : Props) (k : String) (d : Bool) : Bool :=
  match lookupKey p k with
  | some (.b v) => v
  | _ => d

/- Property accessors with the defaults declared in ThicketPropGroup
(src/__init__.py:537-572).  `model` and `qualifier` are dynamic enums;
in every scenario the claims touch they carry a stored value, so the
default leg is an empty string. -/

def tpName (p : Props) : String := getS p "name" ""
def tpModel (p : Props) : String := getS p "model" ""
def tpQualifier (p : Props) : String := getS p "qualifier" ""
def tpLeafDensity (p : Props) : Rat := getF p "leaf_density" 100
def tpViewportLod (p : Props) : String := getS p "viewport_lod" "PROXY"
def tpRenderLod (p : Props) : String := getS p "render_lod" "FULL"
def tpUseLodMaxLevel (p : Props) : Bool := getB p "use_lod_max_level" false
def tpLodMaxLevel (p : Props) : Int := getI p "lod_max_level" 5
def tpUseLodMinThick (p : Props) : Bool := getB p "use_lod_min_thick" false
def tpLodMinThick (p : Props) : Rat := getF p "lod_min_thick" (1/10)
def tpLodSubdiv (p : Props) : Int := getI p "lod_subdiv" 3
def tpLeafAmount (p : Props) : Rat := getF p "leaf_amount" 100
def tpBatchMode (p : Props) : Bool := getB p "batch_mode" false
def tpBatchName (p : Props) : String := getS p "batch_name" ""
def tpBatchModel (p : Props) : String := getS p "batch_model" ""
def tpBatchQualifier (p : Props) : String := getS p "batch_qualifier" ""
def tpBatchUseLod (p : Props) : Bool := getB p "batch_use_lod" false

/-! Import engine (src/thicket_lbw.py).  The Laubwerk SDK mesh
generator is an external dependency; the engine is parameterised over
the SDK calls `getMesh` (full mesh from LOD arguments) and `getProxy`
(the cheap proxy mesh), with `M` the type of generated mesh data. -/

/-- The keyword-argument dictionary handed to the SDK mesh generator
(`mesh_args` in ThicketPropGroup.import_lbw).  `max_branch_level` and
`min_thickness` are present only when their use flag was set. -/
structure MeshArgs where
  qualifier : String
  leaf_density : Rat
  max_branch_level : Option Int
  min_thickness : Option Rat
  max_subdiv_level : Int
  leaf_amount : Rat
deriving DecidableEq, Repr

/-- A Blender object holding generated mesh data. -/
structure BlObj (M : Type) where
  name : String
  mesh : M
deriving DecidableEq, Repr

/-- A plant template collection: its linked objects (viewport first,
render last, as linked by thicket_lbw.import_lbw) and its persisted
ThicketPropGroup. -/
structure Template (M : Type) where
  objects : List (BlObj M)
  thicket : Props
deriving DecidableEq, Repr

/-- VP_MAX_BRANCH_LEVEL (src/thicket_lbw.py:33). -/
def VP_MAX_BRANCH_LEVEL : Int := 4

/-- VP_MIN_THICKNESS (src/thicket_lbw.py:34). -/
def VP_MIN_THICKNESS : Rat := 1/10

/-- The reduced mesh arguments used for a distinct LOW viewport object
(src/thicket_lbw.py:455-464): copy `mesh_args`, cap the branch level
at VP_MAX_BRANCH_LEVEL, floor the thickness at VP_MIN_THICKNESS,
scale leaf amount by 0.66 and leaf density by 0.5, force subdivision
to 0.  The qualifier is carried over by the dict copy. -/
def vpMeshArgs (margs : MeshArgs) : MeshArgs :=
  { margs with
    max_branch_level := some (match margs.max_branch_level with
      | some m => min VP_MAX_BRANCH_LEVEL m
      | none => VP_MAX_BRANCH_LEVEL)
    min_thickness := some (match margs.min_thickness with
      | some t => max VP_MIN_THICKNESS t
      | none => VP_MIN_THICKNESS)
    leaf_amount := (66/100) * margs.leaf_amount
    leaf_density := (1/2) * margs.leaf_density
    max_subdiv_level := 0 }

/-- How one of the two objects of an import came to be: reusing a
previously generated object (renamed, mesh untouched), a fresh SDK
`get_proxy()` call, or a fresh SDK `get_mesh(args)` call. -/
inductive GenSrc (M : Type) where
  | reused (o : BlObj M)
  | proxy (m : M)
  | generated (args : MeshArgs) (m : M)
deriving DecidableEq, Repr

/-- The render-object leg of thicket_lbw.import_lbw
(src/thicket_lbw.py:473-488): a passed-in object is reused and merely
renamed; otherwise a proxy or full mesh is generated; an unknown
render_lod only logs a warning and produces nothing. -/
def engineRender {M : Type} (lbwName : String) (getMesh : MeshArgs → M) (getProxy : M)
    (render_lod : String) (margs : MeshArgs) (objRender : Option (BlObj M)) :
    Option (GenSrc M) :=
  match objRender with
  | some o => some (.reused { o with name := lbwName ++ " (render)" })
  | none =>
    if render_lod = "PROXY" then some (.proxy getProxy)
    else if render_lod = "FULL" then some (.generated margs (getMesh margs))
    else none

/-- The viewport-object leg of thicket_lbw.import_lbw
(src/thicket_lbw.py:445-470): only entered when the viewport LOD
differs from the render LOD; a passed-in object is reused and renamed,
PROXY generates the proxy mesh, LOW generates a mesh from the reduced
`vpMeshArgs`. -/
def engineViewport {M : Type} (lbwName : String) (getMesh : MeshArgs → M) (getProxy : M)
    (viewport_lod render_lod : String) (margs : MeshArgs) (objViewport : Option (BlObj M)) :
    Option (GenSrc M) :=
  if viewport_lod ≠ render_lod then
    match objViewport with
    | some o => some (.reused { o with name := lbwName })
    | none =>
      if viewport_lod = "PROXY" then some (.proxy getProxy)
      else if viewport_lod = "LOW" then
        some (.generated (vpMeshArgs margs) (getMesh (vpMeshArgs margs)))
      else none
  else none

/-- The arguments ThicketPropGroup.import_lbw resolves before calling
the engine. -/
structure ResolvedImport (M : Type) where
  plantName : String
  model : String
  viewport_lod : String
  render_lod : String
  mesh_args : MeshArgs
  viewport_obj : Option (BlObj M)
  render_obj : Option (BlObj M)
deriving DecidableEq, Repr

/-- The mesh_args assembly of ThicketPropGroup.import_lbw
(src/__init__.py:454-460), from the record `tp` the LOD fields are
drawn from and the already-resolved qualifier. -/
def buildMeshArgs (tp : Props) (qualifier : String) : MeshArgs :=
  { qualifier := qualifier
    leaf_density := tpLeafDensity tp / 100
    max_branch_level := if tpUseLodMaxLevel tp then some (tpLodMaxLevel tp) else none
    min_thickness := if tpUseLodMinThick tp then some (tpLodMinThick tp) else none
    max_subdiv_level := tpLodSubdiv tp
    leaf_amount := tpLeafAmount tp / 100 }

/-- ThicketPropGroup.import_lbw up to the engine call
(src/__init__.py:429-483): plant/model/qualifier resolution (with the
batch UNCHANGED logic), choice of the record supplying the LOD
arguments, and the geometry-reuse decision.  The plant name stands in
for the filepath (the database maps the resolved name to a filepath).
`orig_tp` is read only when an original instance was supplied; the
source would fail otherwise. -/
def resolveImport {M : Type} (self : Props) (original : Option (Template M)) :
    ResolvedImport M :=
  let origTp : Props := (original.map Template.thicket).getD []
  let origObjs : List (BlObj M) := (original.map Template.objects).getD []
  let plantName : String :=
    if tpBatchMode self then
      (if tpBatchName self = "" then tpName origTp else tpBatchName self)
    else tpName self
  let tp : Props := if tpBatchMode self && !tpBatchUseLod self then origTp else self
  let model : String :=
    if tpBatchMode self then
      (if tpBatchModel self = "UNCHANGED" then tpModel origTp else tpBatchModel self)
    else tpModel self
  let qualifier : String :=
    if tpBatchMode self then
      (if tpBatchQualifier self = "UNCHANGED" then tpQualifier origTp else tpBatchQualifier self)
    else tpQualifier self
  let margs := buildMeshArgs tp qualifier
  let cond : Bool := original.isSome
    && decide (tpName self = tpName origTp)
    && decide (tpModel self = tpModel origTp)
    && decide (tpQualifier self = tpQualifier origTp)
  let render1 : Option (BlObj M) :=
    if cond && eq_lod self origTp && decide (tpRenderLod self = tpRenderLod origTp)
    then origObjs.getLast? else none
  let viewport1 : Option (BlObj M) :=
    if cond && decide (tpViewportLod self ≠ tpRenderLod self)
       && decide (tpViewportLod self = "PROXY")
       && decide (tpViewportLod self = tpViewportLod origTp)
    then origObjs.head? else none
  let render2 : Option (BlObj M) :=
    if cond && decide (tpRenderLod self = "PROXY")
       && decide (tpViewportLod origTp = "PROXY")
       && decide (tpRenderLod self ≠ tpRenderLod origTp)
    then origObjs.head? else render1
  { plantName := plantName
    model := model
    viewport_lod := tpViewportLod tp
    render_lod := tpRenderLod tp
    mesh_args := margs
    viewport_obj := viewport1
    render_obj := render2 }

/-- The full import pipeline for one plant: resolve the arguments and
run both engine legs.  Returns (viewport source, render source). -/
def importPipeline {M : Type} (getMesh : MeshArgs → M) (getProxy : M) (lbwName : String)
    (self : Props) (original : Option (Template M)) :
    Option (GenSrc M) × Option (GenSrc M) :=
  let r := resolveImport self original
  (engineViewport lbwName getMesh getProxy r.viewport_lod r.render_lod r.mesh_args r.viewport_obj,
   engineRender lbwName getMesh getProxy r.render_lod r.mesh_args r.render_obj)

/-! LOD property mutations (src/__init__.py:533-551).  `render_lod`
carries an `update` callback (render_lod_update) that forces
`viewport_lod` to PROXY when render_lod is set to PROXY;
`viewport_lod` has no callback. -/

/-- The pair of LOD enum properties of a ThicketPropGroup. -/
structure LodState where
  render_lod : String
  viewport_lod : String
deriving DecidableEq, Repr

/-- Writing `render_lod`: store the value, then run render_lod_update
(src/__init__.py:533-535). -/
def set_render_lod (st : LodState) (v : String) : LodState :=
  let s1 : LodState := { st with render_lod := v }
  if s1.render_lod = "PROXY" then { s1 with viewport_lod := "PROXY" } else s1

/-- Writing `viewport_lod`: the property declares no update callback
(src/__init__.py:543-547), so the value is stored unconditionally. -/
def set_viewport_lod (st : LodState) (v : String) : LodState :=
  { st with viewport_lod := v }

/-- One property mutation on the LOD pair. -/
inductive LodMut where
  | setRender (v : String)
  | setViewport (v : String)
deriving DecidableEq, Repr

/-- Apply one mutation. -/
def applyMut (st : LodState) (m : LodMut) : LodState :=
  match m with
  | .setRender v => set_render_lod st v
  | .setViewport v => set_viewport_lod st v

/-- Apply a sequence of mutations in order. -/
def applyMuts (st : LodState) (ms : List LodMut) : LodState :=
  ms.foldl applyMut st

/-- The declared defaults: render_lod FULL, viewport_lod PROXY. -/
def lodDefault : LodState := { render_lod := "FULL", viewport_lod := "PROXY" }

/-! Plant database (src/thicket_db.py). -/

/-- SCHEMA_VERSION (src/thicket_db.py:37). -/
def SCHEMA_VERSION : Int := 2

/-- The labels table: symbol → locale → display text. -/
abbrev Labels := List (String × List (String × String))

/-- Lookup in a string-keyed association list. -/
def lookupStr {α : Type} (m : List (String × α)) (k : String) : Option α :=
  match m with
  | [] => none
  | kv :: rest => if kv.1 = k then some kv.2 else lookupStr rest k

/-- Dict assignment in a string-keyed association list. -/
def setStr {α : Type} (m : List (String × α)) (k : String) (v : α) : List (String × α) :=
  match m with
  | [] => [(k, v)]
  | kv :: rest => if kv.1 = k then (k, v) :: rest else kv :: setStr rest k v

/-- Python `locale.replace("_", "-")`: every underscore becomes a
hyphen (single-character replacement, written out on the character
list so it computes). -/
def normLocale (l : String) : String :=
  String.mk (l.data.map (fun c => if c = '_' then '-' else c))

/-- Python `locale[:2]`: the first two characters. -/
def localeHead2 (l : String) : String :=
  String.mk (l.data.take 2)

/-- ThicketDB.get_label (src/thicket_db.py:172-185): normalise the
requested locale (or fall back to the database locale, already
normalised at construction), then try the full locale, then its first
two characters (`locale[:2]`, the primary subtag), and finally return
the symbol itself; a missing symbol (KeyError) also returns the
symbol. -/
def get_label (labels : Labels) (dbLocale : String) (key : String)
    (loc : Option String) : String :=
  let locale : String :=
    match loc with
    | some l => normLocale l
    | none => dbLocale
  match lookupStr labels key with
  | none => key
  | some m =>
    match lookupStr m locale with
    | some v => v
    | none =>
      match lookupStr m (localeHead2 locale) with
      | some v => v
      | none => key

/-- One plant record as merged into the database (only the fields the
claims need: the natural key). -/
structure PlantRec where
  name : String
deriving DecidableEq, Repr

/-- The persisted database root: info (schema version), labels,
plants keyed by name. -/
structure DBData where
  schema_version : Int
  labels : Labels
  plants : List (String × PlantRec)
deriving DecidableEq, Repr

/-- ThicketDB.initialize (src/thicket_db.py:144-155): a fresh database
carrying the current schema version and no labels or plants. -/
def dbInitialize : DBData :=
  { schema_version := SCHEMA_VERSION, labels := [], plants := [] }

/-- What the database file contains when ThicketDB.__init__ opens it. -/
inductive FileContent where
  | missing
  | corrupt
  | json (d : DBData)
deriving DecidableEq, Repr

/-- The observable outcome of ThicketDB.__init__
(src/thicket_db.py:121-139). `oldSchema` and `notFound` are raised
exceptions (ThicketDBOldSchemaError and FileNotFoundError propagate
to the caller); `decodeLogged` is the JSONDecodeError handler, which
logs at critical severity and returns without loading any structure;
`ok` and `created` complete normally with the given contents. -/
inductive InitOutcome where
  | ok (d : DBData)
  | created (d : DBData)
  | oldSchema
  | notFound
  | decodeLogged
deriving DecidableEq, Repr

/-- Whether the outcome is an exception escaping __init__. -/
def InitOutcome.raises : InitOutcome → Bool
  | .oldSchema => true
  | .notFound => true
  | _ => false

/-- ThicketDB.__init__ (src/thicket_db.py:121-139): load the JSON
file; a stored schema_version strictly below SCHEMA_VERSION raises
ThicketDBOldSchemaError; a missing file is created only when `create`
was requested and raises FileNotFoundError otherwise; a JSON decode
error is logged critical and swallowed. -/
def dbInit (file : FileContent) (create : Bool) : InitOutcome :=
  match file with
  | .json d =>
    if d.schema_version < SCHEMA_VERSION then .oldSchema else .ok d
  | .missing =>
    if create then .created dbInitialize else .notFound
  | .corrupt => .decodeLogged

/-- Log severities used by the database code. -/
inductive LogSev where
  | debug
  | info
  | warning
  | error
  | critical
deriving DecidableEq, Repr

/-- The log records emitted by ThicketDB.__init__: an old schema logs
a warning (before raising), a decode error logs critical. -/
def dbInitLogs (file : FileContent) : List LogSev :=
  match file with
  | .json d => if d.schema_version < SCHEMA_VERSION then [.warning] else []
  | .missing => []
  | .corrupt => [.critical]

/-- One worker process result in ThicketDB.build: the decoded plant
record and labels, or `none` when json.loads raised JSONDecodeError
on the worker's stdout. -/
abbrev ParseOut := Option (PlantRec × Labels)

/-- ThicketDB.update_labels (src/thicket_db.py:169-170): dict.update
of the global label table. -/
def update_labels (labels : Labels) (newLabels : Labels) : Labels :=
  newLabels.foldl (fun acc kv => setStr acc kv.1 kv.2) labels

/-- The merge loop of ThicketDB.build (src/thicket_db.py:234-242):
each decoded worker output is merged into the database keyed by the
plant name; a JSONDecodeError is logged and that plant skipped. -/
def mergeOutputs (d : DBData) (outs : List ParseOut) : DBData :=
  outs.foldl
    (fun acc o =>
      match o with
      | some pr =>
        { acc with
          plants := setStr acc.plants pr.1.name pr.1
          labels := update_labels acc.labels pr.2 }
      | none => acc)
    d

/-- The per-output log records of the build merge loop: an info line
for every added plant, an error line for every decode failure. -/
def mergeLogs (outs : List ParseOut) : List LogSev :=
  outs.map (fun o => match o with | some _ => .info | none => .error)

/-! UI mode state machine (src/__init__.py:861-908). -/

/-- The recognised transition events (`ops` in
THICKET_PT_plant_properties.next_mode). -/
def uiOps : List String :=
  ["ADD", "CANCEL", "CHANGE", "CONFIRM", "DELETE", "EDIT", "MAKE_UNIQUE"]

/-- THICKET_PT_plant_properties.next_mode (src/__init__.py:861-908):
the sidebar mode transition table.  An unknown event logs an error and
returns the current mode; a recognised event without a rule for the
current mode also leaves the mode unchanged. -/
def next_mode (m op : String) : String :=
  if op ∉ uiOps then m
  else if m = "ADD" then
    if op = "CANCEL" then "VIEW"
    else if op = "CHANGE" then "SELECT_ADD"
    else if op = "CONFIRM" then "VIEW"
    else if op = "DELETE" then "VIEW"
    else m
  else if m = "EDIT" then
    if op = "ADD" then "SELECT_ADD"
    else if op = "CANCEL" then "VIEW"
    else if op = "CHANGE" then "SELECT"
    else if op = "CONFIRM" then "VIEW"
    else if op = "DELETE" then "VIEW"
    else m
  else if m = "SELECT" then
    if op = "CANCEL" then "EDIT"
    else if op = "CONFIRM" then "EDIT"
    else m
  else if m = "SELECT_ADD" then
    if op = "CANCEL" then "ADD"
    else if op = "CONFIRM" then "ADD"
    else m
  else if m = "VIEW" then
    if op = "ADD" then "ADD"
    else if op = "EDIT" then "EDIT"
    else m
  else m

/-! Template and instance scene model (src/__init__.py:297-345 and
src/thicket_utils.py:29-48).  A document is modelled by its Thicket
instances (collection-instance objects pointing at a template id),
the template collections (each a list of linked object ids), the
plain objects (each referencing a mesh id), and the mesh, material
and image data blocks with their reference edges: an object uses one
mesh, a mesh lists its materials, a material lists its images.
Template objects are linked only inside template collections, as
thicket_lbw.import_lbw links them. -/

structure Scene where
  instances : List (Nat × Nat)
  templates : List (Nat × List Nat)
  objMesh : List (Nat × Nat)
  meshMats : List (Nat × List Nat)
  matImgs : List (Nat × List Nat)
  images : List Nat
deriving DecidableEq, Repr

/-- `len(template.users_dupli_group)`: the number of live collection
instances pointing at template `t`. -/
def users_dupli_group (s : Scene) (t : Nat) : Nat :=
  (s.instances.filter (fun e => e.2 = t)).length

/-- The object ids linked in template `t` (`template.objects`). -/
def templateObjs (s : Scene) (t : Nat) : List Nat :=
  ((s.templates.find? (fun e => e.1 = t)).map Prod.snd).getD []

/-- `o.users` for a plain object: how many collection links it has
over the given template table. -/
def objUsers (templates : List (Nat × List Nat)) (o : Nat) : Nat :=
  (templates.map (fun e => e.2.count o)).sum

/-- How many objects reference mesh `m`. -/
def meshUsers (objMesh : List (Nat × Nat)) (m : Nat) : Nat :=
  (objMesh.filter (fun e => e.2 = m)).length

/-- How many meshes reference material `mat`. -/
def matUsers (meshMats : List (Nat × List Nat)) (mat : Nat) : Nat :=
  (meshMats.map (fun e => e.2.count mat)).sum

/-- How many materials reference image `im`. -/
def imgUsers (matImgs : List (Nat × List Nat)) (im : Nat) : Nat :=
  (matImgs.map (fun e => e.2.count im)).sum

/-- delete_plant_template (src/__init__.py:297-326,
src/thicket_utils.py:29-42): only when the template has 0 users,
unlink every object of the template (removing those left with 0
users), remove the template collection, then sweep all meshes,
materials and images left with 0 users. -/
def delete_plant_template (s : Scene) (t : Nat) : Scene :=
  if users_dupli_group s t = 0 then
    let objs := templateObjs s t
    let templates1 := s.templates.filter (fun e => !(e.1 = t : Bool))
    let objMesh1 := s.objMesh.filter
      (fun e => !(decide (e.1 ∈ objs) && decide (objUsers templates1 e.1 = 0)))
    let meshMats1 := s.meshMats.filter (fun e => !(decide (meshUsers objMesh1 e.1 = 0)))
    let matImgs1 := s.matImgs.filter (fun e => !(decide (matUsers meshMats1 e.1 = 0)))
    let images1 := s.images.filter (fun im => !(decide (imgUsers matImgs1 im = 0)))
    { instances := s.instances
      templates := templates1
      objMesh := objMesh1
      meshMats := meshMats1
      matImgs := matImgs1
      images := images1 }
  else s

/-- delete_plant (src/__init__.py:329-345): look up the instance's
template, remove the instance object, then delete the template if it
was the last user. -/
def delete_plant (s : Scene) (inst : Nat) : Scene :=
  let t : Nat := ((s.instances.find? (fun e => e.1 = inst)).map Prod.snd).getD 0
  let s1 : Scene := { s with instances := s.instances.filter (fun e => !(e.1 = inst : Bool)) }
  delete_plant_template s1 t

/-- A sequence of delete-instance operations. -/
def deleteSeq (s : Scene) (insts : List Nat) : Scene :=
  insts.foldl delete_plant s

/-! Helper lemmas. -/

theorem lookupKey_elem_iff (b : Props) (kv : String × PVal) :
    (match lookupKey b kv.1 with
     | some w => decide (kv.2 = w)
     | none => false) = true ↔ lookupKey b kv.1 = some kv.2 := by
  cases h : lookupKey b kv.1 with
  | none => simp
  | some w =>
    simp only [decide_eq_true_eq]
    constructor
    · intro hv; rw [hv]
    · intro hv; exact (Option.some.injEq ..).mp hv |>.symm

theorem lookupKey_setKey (p : Props) (k k2 : String) (v : PVal) :
    lookupKey (setKey p k v) k2 = if k2 = k then some v else lookupKey p k2 := by
  induction p with
  | nil =>
    by_cases h : k2 = k
    · subst h; simp [setKey, lookupKey]
    · have h2 : ¬k = k2 := fun hc => h hc.symm
      simp [setKey, lookupKey, h, h2]
  | cons kv rest ih =>
    by_cases hk : kv.1 = k
    · by_cases h : k2 = k
      · subst h; simp [setKey, lookupKey, hk]
      · have h2 : ¬k = k2 := fun hc => h hc.symm
        have h3 : ¬kv.1 = k2 := fun hc => h2 (hk.symm.trans hc)
        simp [setKey, lookupKey, hk, h, h2, h3]
    · by_cases h : k2 = k
      · subst h; simp [setKey, lookupKey, hk, ih]
      · have h2 : ¬k = k2 := fun hc => h hc.symm
        simp [setKey, lookupKey, hk, ih, h, h2]

theorem mem_setKey (p : Props) (k : String) (v : PVal) : (k, v) ∈ setKey p k v := by
  induction p with
  | nil => simp [setKey]
  | cons kv rest ih =>
    by_cases hk : kv.1 = k
    · simp [setKey, hk]
    · simp [setKey, hk, ih]

theorem eq_lod_elem {a b : Props} {kv : String × PVal} (h : eq_lod a b = true)
    (hkv : kv ∈ a) (hlod : kv.1 ∈ lodKeys) : lookupKey b kv.1 = some kv.2 := by
  rw [eq_lod, List.all_eq_true] at h
  have hp := h kv hkv
  rw [if_pos hlod] at hp
  exact (lookupKey_elem_iff b kv).mp hp

theorem eq_lod_setKey_density_false {self orig : Props} (d : Rat)
    (hd : lookupKey orig "leaf_density" ≠ some (.f d)) :
    eq_lod (setKey self "leaf_density" (.f d)) orig = false := by
  rw [Bool.eq_false_iff]
  intro htrue
  exact hd (eq_lod_elem htrue (mem_setKey self "leaf_density" (.f d))
    (show "leaf_density" ∈ lodKeys by decide))

theorem dpt_noop (s : Scene) (t : Nat) (h : users_dupli_group s t ≠ 0) :
    delete_plant_template s t = s := by
  rw [delete_plant_template, if_neg h]

theorem dpt_instances (s : Scene) (t : Nat) :
    (delete_plant_template s t).instances = s.instances := by
  rw [delete_plant_template]
  split_ifs <;> rfl

theorem dp_instances (s : Scene) (i : Nat) :
    (delete_plant s i).instances = s.instances.filter (fun e => !(e.1 = i : Bool)) := by
  simp only [delete_plant]
  rw [dpt_instances]

theorem users_ne_zero_of_mem (s : Scene) (j t : Nat) (h : (j, t) ∈ s.instances) :
    users_dupli_group s t ≠ 0 := by
  rw [users_dupli_group]
  intro hlen
  rw [List.length_eq_zero] at hlen
  have hmem : (j, t) ∈ s.instances.filter (fun e => decide (e.2 = t)) :=
    List.mem_filter.mpr ⟨h, by simp⟩
  rw [hlen] at hmem
  exact absurd hmem (List.not_mem_nil _)

theorem mem_templates_dpt (s : Scene) (t0 t : Nat) (objs : List Nat)
    (hmem : (t, objs) ∈ s.templates) (husers : users_dupli_group s t ≠ 0) :
    (t, objs) ∈ (delete_plant_template s t0).templates := by
  rw [delete_plant_template]
  split_ifs with h0
  · have hne : ¬t = t0 := fun hc => husers (hc ▸ h0)
    exact List.mem_filter.mpr ⟨hmem, by simp [hne]⟩
  · exact hmem

theorem dpt_zero_templates (s : Scene) (t : Nat) (h0 : users_dupli_group s t = 0) :
    (delete_plant_template s t).templates =
      s.templates.filter (fun e => !(e.1 = t : Bool)) := by
  simp only [delete_plant_template, if_pos h0]

theorem dpt_zero_objMesh (s : Scene) (t : Nat) (h0 : users_dupli_group s t = 0) :
    (delete_plant_template s t).objMesh =
      s.objMesh.filter (fun e =>
        !(decide (e.1 ∈ templateObjs s t)
          && decide (objUsers ((delete_plant_template s t).templates) e.1 = 0))) := by
  simp only [delete_plant_template, if_pos h0]

theorem dpt_zero_meshMats (s : Scene) (t : Nat) (h0 : users_dupli_group s t = 0) :
    (delete_plant_template s t).meshMats =
      s.meshMats.filter (fun e =>
        !(decide (meshUsers ((delete_plant_template s t).objMesh) e.1 = 0))) := by
  simp only [delete_plant_template, if_pos h0]

theorem dpt_zero_matImgs (s : Scene) (t : Nat) (h0 : users_dupli_group s t = 0) :
    (delete_plant_template s t).matImgs =
      s.matImgs.filter (fun e =>
        !(decide (matUsers ((delete_plant_template s t).meshMats) e.1 = 0))) := by
  simp only [delete_plant_template, if_pos h0]

theorem dpt_zero_images (s : Scene) (t : Nat) (h0 : users_dupli_group s t = 0) :
    (delete_plant_template s t).images =
      s.images.filter (fun im =>
        !(decide (imgUsers ((delete_plant_template s t).matImgs) im = 0))) := by
  simp only [delete_plant_template, if_pos h0]

theorem deleteSeq_mem_instances (ops : List Nat) :
    ∀ (s : Scene) (j t : Nat),
      (j, t) ∈ (deleteSeq s ops).instances → (j, t) ∈ s.instances := by
  induction ops with
  | nil => intro s j t h; exact h
  | cons i rest ih =>
    intro s j t h
    rw [deleteSeq, List.foldl_cons] at h
    have h1 : (j, t) ∈ (delete_plant s i).instances := ih (delete_plant s i) j t h
    rw [dp_instances] at h1
    exact (List.mem_filter.mp h1).1

theorem getS_setKey_ne (p : Props) (k k2 d : String) (v : PVal) (h : ¬k2 = k) :
    getS (setKey p k v) k2 d = getS p k2 d := by
  simp [getS, lookupKey_setKey, h]

theorem getB_setKey_ne (p : Props) (k k2 : String) (d : Bool) (v : PVal) (h : ¬k2 = k) :
    getB (setKey p k v) k2 d = getB p k2 d := by
  simp [getB, lookupKey_setKey, h]

/-! Claim theorems. -/

/-- C5: ThicketDB.get_label resolves by trying the full (normalised)
locale first, then its two-character primary subtag, and finally
returns the symbol itself, also when the symbol has no label entry at
all; in particular with labels en-US=A and en=B, locale en-GB resolves
to B and the absent locale fr resolves to the symbol.  The embedding
is a total function, so no lookup can raise. -/
theorem get_label_resolution :
    (∀ (labels : Labels) (dbLoc key l : String) (m : List (String × String)),
      lookupStr labels key = some m →
        ((∀ v, lookupStr m (normLocale l) = some v →
            get_label labels dbLoc key (some l) = v) ∧
         (lookupStr m (normLocale l) = none →
            ∀ v, lookupStr m (localeHead2 (normLocale l)) = some v →
              get_label labels dbLoc key (some l) = v) ∧
         (lookupStr m (normLocale l) = none →
            lookupStr m (localeHead2 (normLocale l)) = none →
              get_label labels dbLoc key (some l) = key))) ∧
    (∀ (labels : Labels) (dbLoc key l : String),
      lookupStr labels key = none → get_label labels dbLoc key (some l) = key) ∧
    get_label [("sym", [("en-US", "A"), ("en", "B")])] "en-US" "sym" (some "en-GB") = "B" ∧
    get_label [("sym", [("en-US", "A"), ("en", "B")])] "en-US" "sym" (some "fr") = "sym" := by
  refine ⟨?_, ?_, ?_, ?_⟩
  · intro labels dbLoc key l m hm
    refine ⟨?_, ?_, ?_⟩
    · intro v hv; simp [get_label, hm, hv]
    · intro hfull v hv; simp [get_label, hm, hfull, hv]
    · intro hfull hsub; simp [get_label, hm, hfull, hsub]
  · intro labels dbLoc key l hk; simp [get_label, hk]
  · decide
  · decide

/-- C5 witness: the general resolution clauses applied at the
two-locale example. -/
theorem get_label_resolution_witness :
    get_label [("sym", [("en-US", "A"), ("en", "B")])] "en-US" "sym" (some "en-GB") = "B" := by
  have h := get_label_resolution.1 [("sym", [("en-US", "A"), ("en", "B")])] "en-US" "sym"
    "en-GB" [("en-US", "A"), ("en", "B")] (by decide)
  exact h.2.1 (by decide) "B" (by decide)

/-- C6: opening a persisted database whose stored schema_version is
strictly below SCHEMA_VERSION (2) raises ThicketDBOldSchemaError and
never completes with a loaded database, and opening a missing file
without create raises FileNotFoundError. -/
theorem old_schema_signaled :
    (∀ (d : DBData) (create : Bool), d.schema_version < SCHEMA_VERSION →
      dbInit (.json d) create = .oldSchema ∧
      (∀ d2, dbInit (.json d) create ≠ .ok d2) ∧
      (∀ d2, dbInit (.json d) create ≠ .created d2)) ∧
    dbInit .missing false = .notFound := by
  constructor
  · intro d create h
    refine ⟨?_, ?_, ?_⟩
    · simp [dbInit, h]
    · intro d2; simp [dbInit, h]
    · intro d2; simp [dbInit, h]
  · rfl

/-- C6 witness: a database stored with schema_version 1 signals the
old-schema condition. -/
theorem old_schema_signaled_witness :
    dbInit (.json { schema_version := 1, labels := [], plants := [] }) false = .oldSchema :=
  (old_schema_signaled.1 { schema_version := 1, labels := [], plants := [] } false
    (by decide)).1

/-- C9: structured-decode failures are contained: one malformed worker
output during a parallel build is logged at error severity and that
single plant skipped while every other output is merged exactly as
without it, and a corrupted database file on load is logged at
critical severity and swallowed inside __init__ (no exception
propagates). -/
theorem decode_errors_contained :
    (∀ (d : DBData) (pre post : List ParseOut),
      mergeOutputs d (pre ++ none :: post) = mergeOutputs d (pre ++ post)) ∧
    (∀ (pre post : List ParseOut),
      mergeLogs (pre ++ none :: post) = mergeLogs pre ++ .error :: mergeLogs post) ∧
    (∀ create, dbInit .corrupt create = .decodeLogged) ∧
    InitOutcome.raises .decodeLogged = false ∧
    dbInitLogs .corrupt = [.critical] := by
  refine ⟨?_, ?_, ?_, rfl, rfl⟩
  · intro d pre post
    simp [mergeOutputs, List.foldl_append]
  · intro pre post
    simp [mergeLogs]
  · intro create; rfl

/-- C10: ThicketPropGroup.__eq__ compares only the keys stored on the
left operand: a == b holds exactly when every stored key of a is
stored on b with an equal value; consequently the record with no
stored keys compares equal to every record while the reverse
comparison can be False, so the relation is not symmetric. -/
theorem eq_asymmetric :
    (∀ a b : Props, pgEq a b = true ↔ ∀ kv ∈ a, lookupKey b kv.1 = some kv.2) ∧
    (∀ b : Props, pgEq [] b = true) ∧
    pgEq [] [("model", .s "01adult")] = true ∧
    pgEq [("model", .s "01adult")] [] = false := by
  refine ⟨?_, ?_, by decide, by decide⟩
  · intro a b
    rw [pgEq, List.all_eq_true]
    constructor
    · intro h kv hkv
      exact (lookupKey_elem_iff b kv).mp (h kv hkv)
    · intro h kv hkv
      exact (lookupKey_elem_iff b kv).mpr (h kv hkv)
  · intro b; rfl

/-- C10 witness: the characterisation applied at a concrete pair,
showing the one-sided comparison. -/
theorem eq_asymmetric_witness :
    pgEq [("leaf_density", .f 50)] [("leaf_density", .f 50), ("model", .s "01adult")] = true :=
  (eq_asymmetric.1 [("leaf_density", .f 50)]
    [("leaf_density", .f 50), ("model", .s "01adult")]).mpr (by decide)

/-- C1: regenerating an existing template with unchanged plant name,
model and qualifier, LOD-restricted-equal properties and an unchanged
render LOD reuses the previous render object as-is: the render leg of
the engine receives it and returns it renamed with its mesh untouched
and no get_mesh or get_proxy call made for it; conversely, staging a
leaf_density differing from the original record makes the
LOD-restricted equality false, the render leg receives no object to
reuse, and (at FULL render detail) a fresh get_mesh call with the new
density is forced. -/
theorem lod_reuse_on_update :
    ∀ (M : Type) (getMesh : MeshArgs → M) (getProxy : M) (lbwName : String)
      (self : Props) (t : Template M),
      tpBatchMode self = false →
      tpName self = tpName t.thicket →
      tpModel self = tpModel t.thicket →
      tpQualifier self = tpQualifier t.thicket →
      ((∀ r, t.objects.getLast? = some r →
          eq_lod self t.thicket = true →
          tpRenderLod self = tpRenderLod t.thicket →
          (importPipeline getMesh getProxy lbwName self (some t)).2 =
            some (.reused { name := lbwName ++ " (render)", mesh := r.mesh })) ∧
       (∀ d : Rat,
          lookupKey t.thicket "leaf_density" ≠ some (.f d) →
          tpRenderLod self = tpRenderLod t.thicket →
          (eq_lod (setKey self "leaf_density" (.f d)) t.thicket = false ∧
           (∀ o, (importPipeline getMesh getProxy lbwName
              (setKey self "leaf_density" (.f d)) (some t)).2 ≠ some (.reused o)) ∧
           (tpRenderLod self = "FULL" →
             (importPipeline getMesh getProxy lbwName
                 (setKey self "leaf_density" (.f d)) (some t)).2 =
               some (.generated
                 (buildMeshArgs (setKey self "leaf_density" (.f d)) (tpQualifier self))
                 (getMesh (buildMeshArgs (setKey self "leaf_density" (.f d))
                   (tpQualifier self))))) ∧
           (buildMeshArgs (setKey self "leaf_density" (.f d))
               (tpQualifier self)).leaf_density = d / 100))) := by
  intro M getMesh getProxy lbwName self t hb hname hmodel hqual
  constructor
  · intro r hlast heq hrl
    simp [importPipeline, resolveImport, engineRender, hb, hname, hmodel, hqual, heq,
      hrl, hlast]
  · intro d hd hrl
    have hb2 : tpBatchMode (setKey self "leaf_density" (.f d)) = false := by
      rw [tpBatchMode, getB_setKey_ne _ _ _ _ _ (by decide)]; exact hb
    have hname2 : tpName (setKey self "leaf_density" (.f d)) = tpName t.thicket := by
      rw [tpName, getS_setKey_ne _ _ _ _ _ (by decide)]; exact hname
    have hmodel2 : tpModel (setKey self "leaf_density" (.f d)) = tpModel t.thicket := by
      rw [tpModel, getS_setKey_ne _ _ _ _ _ (by decide)]; exact hmodel
    have hqual2 : tpQualifier (setKey self "leaf_density" (.f d))
        = tpQualifier t.thicket := by
      rw [tpQualifier, getS_setKey_ne _ _ _ _ _ (by decide)]; exact hqual
    have hqself : tpQualifier (setKey self "leaf_density" (.f d)) = tpQualifier self := by
      rw [tpQualifier, tpQualifier, getS_setKey_ne _ _ _ _ _ (by decide)]
    have hrl2 : tpRenderLod (setKey self "leaf_density" (.f d))
        = tpRenderLod t.thicket := by
      rw [tpRenderLod, getS_setKey_ne _ _ _ _ _ (by decide)]; exact hrl
    have hrlself : tpRenderLod (setKey self "leaf_density" (.f d))
        = tpRenderLod self := by
      rw [tpRenderLod, tpRenderLod, getS_setKey_ne _ _ _ _ _ (by decide)]
    have heqf := @eq_lod_setKey_density_false self t.thicket d hd
    refine ⟨heqf, ?_, ?_, ?_⟩
    · intro o
      simp only [importPipeline, resolveImport, engineRender]
      simp [hb2, hname2, hmodel2, hqual2, heqf, hrl2, hrlself]
      split_ifs <;> simp
    · intro hfull
      have hrfull : tpRenderLod t.thicket = "FULL" := hrl.symm.trans hfull
      simp only [importPipeline, resolveImport, engineRender]
      rw [hqual]
      simp [hb2, hname2, hmodel2, hqual2, heqf, hrl2, hrlself, hqself, hfull, hrfull]
    · simp [buildMeshArgs, tpLeafDensity, getF, lookupKey_setKey]

/-- C1 witness: a concrete original template whose record stores the
LOD fields; the unchanged request reuses the stored render object,
and restaging leaf_density 50 forces a fresh full-detail call at
density 0.5. -/
theorem lod_reuse_on_update_witness :
    (importPipeline (fun _ => (0 : Nat)) 1 "Quercus robur"
        [("name", .s "Quercus"), ("model", .s "01adult"), ("qualifier", .s "summer"),
         ("leaf_density", .f 100), ("render_lod", .s "FULL")]
        (some { objects := [{ name := "Quercus", mesh := 7 },
                            { name := "Quercus (render)", mesh := 9 }],
                thicket := [("name", .s "Quercus"), ("model", .s "01adult"),
                            ("qualifier", .s "summer"), ("leaf_density", .f 100),
                            ("render_lod", .s "FULL")] })).2 =
      some (.reused { name := "Quercus robur (render)", mesh := 9 }) ∧
    (buildMeshArgs
        (setKey [("name", .s "Quercus"), ("model", .s "01adult"),
                 ("qualifier", .s "summer"), ("leaf_density", .f 100),
                 ("render_lod", .s "FULL")] "leaf_density" (.f 50))
        (tpQualifier [("name", .s "Quercus"), ("model", .s "01adult"),
                      ("qualifier", .s "summer"), ("leaf_density", .f 100),
                      ("render_lod", .s "FULL")])).leaf_density = 50 / 100 := by
  have h := lod_reuse_on_update Nat (fun _ => 0) 1 "Quercus robur"
    [("name", .s "Quercus"), ("model", .s "01adult"), ("qualifier", .s "summer"),
     ("leaf_density", .f 100), ("render_lod", .s "FULL")]
    { objects := [{ name := "Quercus", mesh := 7 },
                  { name := "Quercus (render)", mesh := 9 }],
      thicket := [("name", .s "Quercus"), ("model", .s "01adult"),
                  ("qualifier", .s "summer"), ("leaf_density", .f 100),
                  ("render_lod", .s "FULL")] }
    (by decide) (by decide) (by decide) (by decide)
  refine ⟨h.1 { name := "Quercus (render)", mesh := 9 } (by decide) (by decide)
    (by decide), ?_⟩
  exact (h.2 50 (by decide) (by decide)).2.2.2

/-- C2: reference-counted template deletion.  A template whose live
instance count is nonzero is never touched by delete_plant_template;
deleting one of two instances sharing a template removes only that
instance, leaving the template, the surviving instance and every data
block intact; deleting the last instance of a template removes the
template collection, removes its objects that are linked nowhere
else, and sweeps exactly the mesh, material and image data blocks
left with zero users; and across any sequence of delete-instance
operations a template entry survives as long as some live instance
still references it. -/
theorem template_refcount_delete :
    (∀ (s : Scene) (t : Nat), users_dupli_group s t ≠ 0 → delete_plant_template s t = s) ∧
    (∀ (s : Scene) (i j t : Nat),
      s.instances.find? (fun e => e.1 = i) = some (i, t) →
      (j, t) ∈ s.instances → ¬j = i →
      (delete_plant s i =
        { s with instances := s.instances.filter (fun e => !(e.1 = i : Bool)) } ∧
       (j, t) ∈ (delete_plant s i).instances ∧
       (delete_plant s i).templates = s.templates ∧
       (delete_plant s i).objMesh = s.objMesh ∧
       (delete_plant s i).meshMats = s.meshMats ∧
       (delete_plant s i).matImgs = s.matImgs ∧
       (delete_plant s i).images = s.images)) ∧
    (∀ (s : Scene) (i t : Nat),
      s.instances.find? (fun e => e.1 = i) = some (i, t) →
      users_dupli_group
        { s with instances := s.instances.filter (fun e => !(e.1 = i : Bool)) } t = 0 →
      ((∀ objs, (t, objs) ∉ (delete_plant s i).templates) ∧
       (∀ o, o ∈ templateObjs s t →
          objUsers (s.templates.filter (fun e => !(e.1 = t : Bool))) o = 0 →
          ∀ m, (o, m) ∉ (delete_plant s i).objMesh) ∧
       (∀ e, e ∈ (delete_plant s i).meshMats →
          meshUsers (delete_plant s i).objMesh e.1 ≠ 0) ∧
       (∀ e, e ∈ s.meshMats → meshUsers (delete_plant s i).objMesh e.1 = 0 →
          e ∉ (delete_plant s i).meshMats) ∧
       (∀ e, e ∈ (delete_plant s i).matImgs →
          matUsers (delete_plant s i).meshMats e.1 ≠ 0) ∧
       (∀ e, e ∈ s.matImgs → matUsers (delete_plant s i).meshMats e.1 = 0 →
          e ∉ (delete_plant s i).matImgs) ∧
       (∀ im, im ∈ (delete_plant s i).images →
          imgUsers (delete_plant s i).matImgs im ≠ 0) ∧
       (∀ im, im ∈ s.images → imgUsers (delete_plant s i).matImgs im = 0 →
          im ∉ (delete_plant s i).images))) ∧
    (∀ (ops : List Nat) (s : Scene) (t : Nat) (objs : List Nat),
      (t, objs) ∈ s.templates →
      (∃ j, (j, t) ∈ (deleteSeq s ops).instances) →
      (t, objs) ∈ (deleteSeq s ops).templates) := by
  refine ⟨fun s t h => dpt_noop s t h, ?_, ?_, ?_⟩
  · intro s i j t hfind hj hne
    have ht : ((s.instances.find? (fun e => e.1 = i)).map Prod.snd).getD 0 = t := by
      rw [hfind]; rfl
    have hj1 : (j, t) ∈ s.instances.filter (fun e => !(e.1 = i : Bool)) :=
      List.mem_filter.mpr ⟨hj, by simp [hne]⟩
    have husers : users_dupli_group
        { s with instances := s.instances.filter (fun e => !(e.1 = i : Bool)) } t ≠ 0 :=
      users_ne_zero_of_mem _ j t hj1
    have heq : delete_plant s i =
        { s with instances := s.instances.filter (fun e => !(e.1 = i : Bool)) } := by
      simp only [delete_plant]
      rw [ht]
      exact dpt_noop _ _ husers
    refine ⟨heq, ?_, ?_, ?_, ?_, ?_, ?_⟩ <;> rw [heq]
    exact hj1
  · intro s i t hfind h0
    have ht : ((s.instances.find? (fun e => e.1 = i)).map Prod.snd).getD 0 = t := by
      rw [hfind]; rfl
    have hd : delete_plant s i =
        delete_plant_template
          { s with instances := s.instances.filter (fun e => !(e.1 = i : Bool)) } t := by
      simp only [delete_plant]
      rw [ht]
    refine ⟨?_, ?_, ?_, ?_, ?_, ?_, ?_, ?_⟩
    · intro objs hmem
      rw [hd, dpt_zero_templates _ _ h0] at hmem
      have hp := (List.mem_filter.mp hmem).2
      simp at hp
    · intro o ho hu m hmem
      rw [hd, dpt_zero_objMesh _ _ h0] at hmem
      have hp := (List.mem_filter.mp hmem).2
      rw [dpt_zero_templates _ _ h0] at hp
      have ho2 : o ∈ templateObjs
          { s with instances := s.instances.filter (fun e => !(e.1 = i : Bool)) } t := ho
      have hu2 : objUsers
          (({ s with instances := s.instances.filter (fun e => !(e.1 = i : Bool)) }
            : Scene).templates.filter (fun e => !(e.1 = t : Bool))) o = 0 := hu
      simp [ho2, hu2] at hp
    · intro e hmem
      rw [hd, dpt_zero_meshMats _ _ h0] at hmem
      have hp := (List.mem_filter.mp hmem).2
      rw [hd]
      simpa using hp
    · intro e hmemS hz hmem
      rw [hd, dpt_zero_meshMats _ _ h0] at hmem
      rw [hd] at hz
      have hp := (List.mem_filter.mp hmem).2
      simp [hz] at hp
    · intro e hmem
      rw [hd, dpt_zero_matImgs _ _ h0] at hmem
      have hp := (List.mem_filter.mp hmem).2
      rw [hd]
      simpa using hp
    · intro e hmemS hz hmem
      rw [hd, dpt_zero_matImgs _ _ h0] at hmem
      rw [hd] at hz
      have hp := (List.mem_filter.mp hmem).2
      simp [hz] at hp
    · intro im hmem
      rw [hd, dpt_zero_images _ _ h0] at hmem
      have hp := (List.mem_filter.mp hmem).2
      rw [hd]
      simpa using hp
    · intro im hmemS hz hmem
      rw [hd, dpt_zero_images _ _ h0] at hmem
      rw [hd] at hz
      have hp := (List.mem_filter.mp hmem).2
      simp [hz] at hp
  · intro ops
    induction ops with
    | nil => intro s t objs hmem hex; exact hmem
    | cons i rest ih =>
      intro s t objs hmem hex
      rw [deleteSeq, List.foldl_cons] at hex ⊢
      obtain ⟨j, hj⟩ := hex
      have hj1 : (j, t) ∈ (delete_plant s i).instances :=
        deleteSeq_mem_instances rest (delete_plant s i) j t hj
      have hj2 : (j, t) ∈
          (s.instances.filter (fun e => !(e.1 = i : Bool))) := by
        rw [dp_instances] at hj1; exact hj1
      have husers : users_dupli_group
          { s with instances := s.instances.filter (fun e => !(e.1 = i : Bool)) } t ≠ 0 :=
        users_ne_zero_of_mem _ j t hj2
      have hmem1 : (t, objs) ∈ (delete_plant s i).templates := by
        simp only [delete_plant]
        exact mem_templates_dpt _ _ t objs hmem husers
      exact ih (delete_plant s i) t objs hmem1 ⟨j, hj⟩

/-- C2 witness: a scene with two instances of one template holding a
viewport and a render object over two meshes sharing one material and
one image.  Deleting the first instance keeps everything; deleting
the second removes the template, both objects, both meshes, the
material and the image. -/
theorem template_refcount_delete_witness :
    (delete_plant
        { instances := [(1, 10), (2, 10)], templates := [(10, [20, 21])],
          objMesh := [(20, 30), (21, 31)], meshMats := [(30, [40]), (31, [40])],
          matImgs := [(40, [50])], images := [50] } 1).templates = [(10, [20, 21])] ∧
    (2, 10) ∈ (delete_plant
        { instances := [(1, 10), (2, 10)], templates := [(10, [20, 21])],
          objMesh := [(20, 30), (21, 31)], meshMats := [(30, [40]), (31, [40])],
          matImgs := [(40, [50])], images := [50] } 1).instances ∧
    (∀ objs, (10, objs) ∉ (delete_plant
        { instances := [(2, 10)], templates := [(10, [20, 21])],
          objMesh := [(20, 30), (21, 31)], meshMats := [(30, [40]), (31, [40])],
          matImgs := [(40, [50])], images := [50] } 2).templates) := by
  have h2 := template_refcount_delete.2.1
    { instances := [(1, 10), (2, 10)], templates := [(10, [20, 21])],
      objMesh := [(20, 30), (21, 31)], meshMats := [(30, [40]), (31, [40])],
      matImgs := [(40, [50])], images := [50] } 1 2 10
    (by decide) (by decide) (by decide)
  have h3 := template_refcount_delete.2.2.1
    { instances := [(2, 10)], templates := [(10, [20, 21])],
      objMesh := [(20, 30), (21, 31)], meshMats := [(30, [40]), (31, [40])],
      matImgs := [(40, [50])], images := [50] } 2 10
    (by decide) (by decide)
  exact ⟨h2.2.2.1, h2.2.1, h3.1⟩

/-- C4: with batch_mode on, batch_name empty, batch_model and
batch_qualifier both UNCHANGED and batch_use_lod on (the geometry
options were opted into, as required for a staged leaf_density to
apply), every batch-edited instance resolves its plant, model and
qualifier from its own original template record — not from the
staging record — while the mesh arguments are drawn from the staging
record; if the staging record agrees with the original on every
LOD-affecting field except leaf_density, the resolved request equals
the original's request with only leaf_density replaced by the staged
value, and the same holds pointwise across any list of selected
instances. -/
theorem batch_unchanged_resolution :
    ∀ (M : Type) (self : Props),
      tpBatchMode self = true →
      tpBatchName self = "" →
      tpBatchModel self = "UNCHANGED" →
      tpBatchQualifier self = "UNCHANGED" →
      tpBatchUseLod self = true →
      (∀ t : Template M,
        ((resolveImport self (some t)).plantName = tpName t.thicket ∧
         (resolveImport self (some t)).model = tpModel t.thicket ∧
         (resolveImport self (some t)).mesh_args.qualifier = tpQualifier t.thicket ∧
         (resolveImport self (some t)).mesh_args.leaf_density = tpLeafDensity self / 100 ∧
         (tpLeafAmount self = tpLeafAmount t.thicket →
          tpUseLodMaxLevel self = tpUseLodMaxLevel t.thicket →
          tpLodMaxLevel self = tpLodMaxLevel t.thicket →
          tpUseLodMinThick self = tpUseLodMinThick t.thicket →
          tpLodMinThick self = tpLodMinThick t.thicket →
          tpLodSubdiv self = tpLodSubdiv t.thicket →
            (resolveImport self (some t)).mesh_args =
              { buildMeshArgs t.thicket (tpQualifier t.thicket) with
                leaf_density := tpLeafDensity self / 100 }))) ∧
      (∀ ts : List (Template M),
        ts.map (fun t => (resolveImport self (some t)).model) =
          ts.map (fun t => tpModel t.thicket)) := by
  intro M self hbm hbn hbmod hbq hblod
  have hpoint : ∀ t : Template M,
      (resolveImport self (some t)).plantName = tpName t.thicket ∧
      (resolveImport self (some t)).model = tpModel t.thicket ∧
      (resolveImport self (some t)).mesh_args.qualifier = tpQualifier t.thicket ∧
      (resolveImport self (some t)).mesh_args.leaf_density = tpLeafDensity self / 100 ∧
      (tpLeafAmount self = tpLeafAmount t.thicket →
       tpUseLodMaxLevel self = tpUseLodMaxLevel t.thicket →
       tpLodMaxLevel self = tpLodMaxLevel t.thicket →
       tpUseLodMinThick self = tpUseLodMinThick t.thicket →
       tpLodMinThick self = tpLodMinThick t.thicket →
       tpLodSubdiv self = tpLodSubdiv t.thicket →
         (resolveImport self (some t)).mesh_args =
           { buildMeshArgs t.thicket (tpQualifier t.thicket) with
             leaf_density := tpLeafDensity self / 100 }) := by
    intro t
    refine ⟨?_, ?_, ?_, ?_, ?_⟩
    · simp [resolveImport, hbm, hbn]
    · simp [resolveImport, hbm, hbmod]
    · simp [resolveImport, buildMeshArgs, hbm, hbq, hblod]
    · simp [resolveImport, buildMeshArgs, hbm, hblod]
    · intro h1 h2 h3 h4 h5 h6
      simp [resolveImport, buildMeshArgs, hbm, hbq, hblod, h1, h2, h3, h4, h5, h6]
  refine ⟨hpoint, ?_⟩
  intro ts
  induction ts with
  | nil => rfl
  | cons t rest ih => simp [ih, (hpoint t).2.1]

/-- C4 witness: three originals with distinct models all keep their
own model and qualifier under one UNCHANGED staging record, and all
take the staged density. -/
theorem batch_unchanged_resolution_witness :
    ([{ objects := [], thicket := [("model", .s "01young"), ("qualifier", .s "spring")] },
      { objects := [], thicket := [("model", .s "02medium"), ("qualifier", .s "summer")] },
      { objects := [], thicket := [("model", .s "03adult"), ("qualifier", .s "winter")] }]
        : List (Template Nat)).map
      (fun t => (resolveImport
        [("batch_mode", .b true), ("batch_name", .s ""),
         ("batch_model", .s "UNCHANGED"), ("batch_qualifier", .s "UNCHANGED"),
         ("batch_use_lod", .b true), ("leaf_density", .f 40)] (some t)).model) =
      ["01young", "02medium", "03adult"] ∧
    (resolveImport
        [("batch_mode", .b true), ("batch_name", .s ""),
         ("batch_model", .s "UNCHANGED"), ("batch_qualifier", .s "UNCHANGED"),
         ("batch_use_lod", .b true), ("leaf_density", .f 40)]
        (some ({ objects := [],
                 thicket := [("model", .s "01young"), ("qualifier", .s "spring")] }
          : Template Nat))).mesh_args.leaf_density = 40 / 100 := by
  have h := batch_unchanged_resolution Nat
    [("batch_mode", .b true), ("batch_name", .s ""),
     ("batch_model", .s "UNCHANGED"), ("batch_qualifier", .s "UNCHANGED"),
     ("batch_use_lod", .b true), ("leaf_density", .f 40)]
    (by decide) (by decide) (by decide) (by decide) (by decide)
  constructor
  · rw [h.2 [{ objects := [], thicket := [("model", .s "01young"), ("qualifier", .s "spring")] },
      { objects := [], thicket := [("model", .s "02medium"), ("qualifier", .s "summer")] },
      { objects := [], thicket := [("model", .s "03adult"), ("qualifier", .s "winter")] }]]
    decide
  · have hp := h.1 { objects := [], thicket := [("model", .s "01young"), ("qualifier", .s "spring")] }
    rw [hp.2.2.2.1]
    simp [tpLeafDensity, getF, lookupKey]

/-- C8: the next_mode transition table: from EDIT the Change event
yields SELECT; from SELECT both Cancel and Confirm return to EDIT;
from SELECT_ADD both return to ADD; and any event not listed for the
current state (whether unrecognised entirely or merely without a rule
there) leaves the mode unchanged. -/
theorem ui_transition_table :
    next_mode "EDIT" "CHANGE" = "SELECT" ∧
    next_mode "SELECT" "CANCEL" = "EDIT" ∧
    next_mode "SELECT" "CONFIRM" = "EDIT" ∧
    next_mode "SELECT_ADD" "CANCEL" = "ADD" ∧
    next_mode "SELECT_ADD" "CONFIRM" = "ADD" ∧
    (∀ op, op ∉ uiOps → ∀ m, next_mode m op = m) ∧
    (∀ op ∈ uiOps, op ∉ ["CANCEL", "CHANGE", "CONFIRM", "DELETE"] →
      next_mode "ADD" op = "ADD") ∧
    (∀ op ∈ uiOps, op ∉ ["ADD", "CANCEL", "CHANGE", "CONFIRM", "DELETE"] →
      next_mode "EDIT" op = "EDIT") ∧
    (∀ op ∈ uiOps, op ∉ ["CANCEL", "CONFIRM"] → next_mode "SELECT" op = "SELECT") ∧
    (∀ op ∈ uiOps, op ∉ ["CANCEL", "CONFIRM"] → next_mode "SELECT_ADD" op = "SELECT_ADD") ∧
    (∀ op ∈ uiOps, op ∉ ["ADD", "EDIT"] → next_mode "VIEW" op = "VIEW") := by
  refine ⟨by decide, by decide, by decide, by decide, by decide, ?_, ?_, ?_, ?_, ?_, ?_⟩
  · intro op hop m
    rw [next_mode, if_pos hop]
  all_goals
    intro op hmem hnot
    simp only [uiOps, List.mem_cons, List.not_mem_nil, or_false] at hmem
    rcases hmem with h | h | h | h | h | h | h <;> subst h <;> first
      | rfl
      | (exfalso; exact hnot (by decide))

/-- C8 witness: the unchanged-mode clauses applied at concrete
events. -/
theorem ui_transition_table_witness :
    next_mode "SELECT" "DELETE" = "SELECT" ∧ next_mode "EDIT" "BOGUS" = "EDIT" := by
  constructor
  · exact ui_transition_table.2.2.2.2.2.2.2.2.1 "DELETE" (by decide) (by decide)
  · exact ui_transition_table.2.2.2.2.2.1 "BOGUS" (by decide) "EDIT"

/-- C3 counterexample: the claimed invariant fails on the property
model as coded: setting render_lod to PROXY (which forces
viewport_lod to PROXY) and then setting viewport_lod to LOW — a
write the property system accepts, since viewport_lod declares no
update callback — reaches render_lod = PROXY with viewport_lod =
LOW. -/
theorem render_proxy_counterexample :
    (applyMuts lodDefault [.setRender "PROXY", .setViewport "LOW"]).render_lod = "PROXY" ∧
    (applyMuts lodDefault [.setRender "PROXY", .setViewport "LOW"]).viewport_lod = "LOW" := by
  constructor <;> rfl

/-- C3 amended: render_lod = PROXY implies viewport_lod = PROXY after
every mutation sequence that ends with a render_lod write (the
render_lod update callback enforces the pair); a later direct
viewport_lod write can break it, so the invariant is not maintained
under arbitrary mutation orders. -/
theorem render_proxy_after_render_write :
    ∀ (st : LodState) (ms : List LodMut) (v : String),
      (applyMuts st (ms ++ [.setRender v])).render_lod = "PROXY" →
      (applyMuts st (ms ++ [.setRender v])).viewport_lod = "PROXY" := by
  intro st ms v h
  rw [applyMuts, List.foldl_append, List.foldl_cons, List.foldl_nil] at h ⊢
  by_cases hv : v = "PROXY" <;>
    simp only [applyMut, set_render_lod, hv, if_true, if_false, reduceIte] at h ⊢

/-- C3 amended witness: a concrete sequence ending in a render_lod
write satisfies the invariant. -/
theorem render_proxy_after_render_write_witness :
    (applyMuts lodDefault ([.setViewport "FULL"] ++ [.setRender "PROXY"])).viewport_lod
      = "PROXY" :=
  render_proxy_after_render_write lodDefault [.setViewport "FULL"] "PROXY" (by decide)

/-- C7: a distinct LOW viewport object is generated from the render
request by capping max_branch_level at 4 (minimum with a supplied
cap), flooring min_thickness at 0.1 (maximum with a supplied value),
scaling leaf_amount by 0.66 and leaf_density by 0.5, forcing
max_subdiv_level to 0, and passing every other field (the qualifier)
through unchanged. -/
theorem viewport_low_args :
    ∀ (margs : MeshArgs),
      ((∀ mbl, margs.max_branch_level = some mbl →
          (vpMeshArgs margs).max_branch_level = some (min 4 mbl)) ∧
       (margs.max_branch_level = none → (vpMeshArgs margs).max_branch_level = some 4) ∧
       (∀ mt, margs.min_thickness = some mt →
          (vpMeshArgs margs).min_thickness = some (max (1/10) mt)) ∧
       (margs.min_thickness = none → (vpMeshArgs margs).min_thickness = some (1/10)) ∧
       (vpMeshArgs margs).leaf_amount = (66/100) * margs.leaf_amount ∧
       (vpMeshArgs margs).leaf_density = (1/2) * margs.leaf_density ∧
       (vpMeshArgs margs).max_subdiv_level = 0 ∧
       (vpMeshArgs margs).qualifier = margs.qualifier) ∧
      ∀ (M : Type) (getMesh : MeshArgs → M) (getProxy : M) (lbwName rl : String),
        rl ≠ "LOW" →
        engineViewport lbwName getMesh getProxy "LOW" rl margs none =
          some (.generated (vpMeshArgs margs) (getMesh (vpMeshArgs margs))) := by
  intro margs
  constructor
  · refine ⟨?_, ?_, ?_, ?_, rfl, rfl, rfl, rfl⟩
    · intro mbl h; simp [vpMeshArgs, h, VP_MAX_BRANCH_LEVEL]
    · intro h; simp [vpMeshArgs, h, VP_MAX_BRANCH_LEVEL]
    · intro mt h; simp [vpMeshArgs, h, VP_MIN_THICKNESS]
    · intro h; simp [vpMeshArgs, h, VP_MIN_THICKNESS]
  · intro M getMesh getProxy lbwName rl hrl
    have hne : "LOW" ≠ rl := fun hc => hrl hc.symm
    simp [engineViewport, hne]

/-- C7 witness: the LOW viewport request derived from a concrete
render request with both overrides supplied. -/
theorem viewport_low_args_witness :
    (vpMeshArgs
        { qualifier := "summer", leaf_density := 3/4, max_branch_level := some 7,
          min_thickness := some (3/100), max_subdiv_level := 3,
          leaf_amount := 1 }).max_branch_level = some (min 4 7) ∧
    (vpMeshArgs
        { qualifier := "summer", leaf_density := 3/4, max_branch_level := some 7,
          min_thickness := some (3/100), max_subdiv_level := 3,
          leaf_amount := 1 }).min_thickness = some (max (1/10) (3/100)) ∧
    (vpMeshArgs
        { qualifier := "summer", leaf_density := 3/4, max_branch_level := some 7,
          min_thickness := some (3/100), max_subdiv_level := 3,
          leaf_amount := 1 }).leaf_density = (1/2) * (3/4) ∧
    (vpMeshArgs
        { qualifier := "summer", leaf_density := 3/4, max_branch_level := some 7,
          min_thickness := some (3/100), max_subdiv_level := 3,
          leaf_amount := 1 }).qualifier = "summer" :=
  have h := viewport_low_args
    { qualifier := "summer", leaf_density := 3/4, max_branch_level := some 7,
      min_thickness := some (3/100), max_subdiv_level := 3, leaf_amount := 1 }
  ⟨h.1.1 7 rfl, h.1.2.2.1 (3/100) rfl, h.1.2.2.2.2.2.1, h.1.2.2.2.2.2.2.2⟩

end Thicket
